import Mathlib

/-
Verification of the steam-limiter filter DLL (src/steamfilter/filter.cpp)
against its specification, via a shallow embedding in Lean.

Modelling conventions:
  - Machine integers are Nat or Int with explicit reductions mod 2^w where
    the source type can overflow (unsigned long is 32 bits and long long is
    64 bits on the x86 Windows target this code is written for).
  - The external rule engine (FilterRules, out of scope per the spec) is
    abstracted by passing its match outcome as parameters: a Bool for
    whether a rule matched and an Option for the replacement pointer the
    engine produced.
  - The original API implementations reached through the resume pointers
    are abstracted as oracle functions passed in as parameters.
  - OS primitives (VirtualProtect, GetTickCount, GetModuleHandle) are
    modelled as succeeding; all failure paths the claims speak about are
    decided before any such call in the source.
-/

namespace SteamLimiter

/-- AF_INET address family constant. -/
def AF_INET : Nat := 2

/-- INADDR_NONE sentinel, the all-ones IPv4 address. -/
def INADDR_NONE : Nat := 0xFFFFFFFF

/-- INADDR_ANY, the zero IPv4 address. -/
def INADDR_ANY : Nat := 0

/-- SOCKET_ERROR result value of Winsock calls. -/
def SOCKET_ERROR : Int := -1

/-- WSAECONNREFUSED error code. -/
def WSAECONNREFUSED : Nat := 10061

/-- WSAHOST_NOT_FOUND error code. -/
def WSAHOST_NOT_FOUND : Nat := 11001

/-- MSG_PEEK receive flag bit. -/
def MSG_PEEK : Nat := 2

/-- An IPv4 socket address as the handlers see it: sin_family, sin_port
(16-bit, network order) and sin_addr.S_un.S_addr (32-bit). -/
structure SockAddrIn where
  sin_family : Nat
  sin_port : Nat
  sin_addr : Nat
  deriving DecidableEq, Repr

/-- Observable outcome of one connectHook call: the value returned to the
caller, the last-error code if SetLastError was called, and the destination
forwarded to the original connect if it was invoked (none = the original
implementation was never called). -/
structure ConnectResult where
  ret : Int
  lastError : Option Nat
  forwarded : Option SockAddrIn
  deriving DecidableEq, Repr

/-- Embedding of connectHook (filter.cpp lines 223-280).  The rule engine
match outcome is passed in as `matched` (the Bool g_rules.match returned)
and `replace` (the replacement pointer it produced, none = null).  The
original connect implementation is the oracle `orig`, keyed by the
destination it is handed (the socket and namelen do not influence the
properties claimed). -/
def connectHook (name : SockAddrIn) (matched : Bool)
    (replace : Option SockAddrIn) (orig : SockAddrIn → Int) : ConnectResult :=
  if name.sin_family ≠ AF_INET ∨ matched = false then
    { ret := orig name, lastError := none, forwarded := some name }
  else
    match replace with
    | none =>
        { ret := SOCKET_ERROR, lastError := some WSAECONNREFUSED,
          forwarded := none }
    | some r =>
        if r.sin_addr = INADDR_NONE then
          { ret := SOCKET_ERROR, lastError := some WSAECONNREFUSED,
            forwarded := none }
        else
          let temp : SockAddrIn :=
            { sin_family := name.sin_family
              sin_port := if r.sin_port ≠ 0 then r.sin_port else name.sin_port
              sin_addr := if r.sin_addr ≠ 0 then r.sin_addr else name.sin_addr }
          { ret := orig temp, lastError := none, forwarded := some temp }

/-- A hostent result as gethostHook synthesizes it: address type, length,
host name and the single-entry address list. -/
structure HostEnt where
  h_addrtype : Nat
  h_length : Nat
  h_name : String
  addrs : List Nat
  deriving DecidableEq, Repr

/-- Observable outcome of one gethostHook call: the hostent returned to the
caller (none = null pointer), the last-error code if SetLastError was
called, and whether the original resolver was invoked. -/
structure GetHostResult where
  ret : Option HostEnt
  lastError : Option Nat
  origCalled : Bool
  deriving DecidableEq, Repr

/-- Embedding of gethostHook (filter.cpp lines 286-342).  `matched` and
`replace` are the rule-engine outcome for the queried name; `orig` is the
result the original gethostbyname would return for that name. -/
def gethostHook (matched : Bool) (replace : Option SockAddrIn)
    (orig : Option HostEnt) : GetHostResult :=
  let passthrough : Bool :=
    !matched ||
      (match replace with
       | some r => r.sin_addr == INADDR_ANY
       | none => false)
  if passthrough then
    { ret := orig, lastError := none, origCalled := true }
  else
    match replace with
    | none =>
        { ret := none, lastError := some WSAHOST_NOT_FOUND, origCalled := false }
    | some r =>
        if r.sin_addr = INADDR_NONE then
          { ret := none, lastError := some WSAHOST_NOT_FOUND,
            origCalled := false }
        else
          { ret := some { h_addrtype := AF_INET, h_length := 4,
                          h_name := "remapped.local", addrs := [r.sin_addr] },
            lastError := none, origCalled := true }

/-- C1: for every connect call whose IPv4 destination matches a rule
producing a redirect replacement (ip1, port1) distinct from the deny
sentinel, the destination forwarded to the original connect implementation
is (ip1 if ip1 is nonzero else ip0, port1 if port1 is nonzero else port0),
with the address family of the caller preserved, and the return value is
what the original implementation returned for that destination. -/
theorem connect_redirect_composition (name r : SockAddrIn)
    (orig : SockAddrIn → Int)
    (hfam : name.sin_family = AF_INET)
    (hnone : r.sin_addr ≠ INADDR_NONE) :
    connectHook name true (some r) orig =
      { ret := orig { sin_family := name.sin_family
                      sin_port := if r.sin_port ≠ 0 then r.sin_port else name.sin_port
                      sin_addr := if r.sin_addr ≠ 0 then r.sin_addr else name.sin_addr }
        lastError := none
        forwarded := some { sin_family := name.sin_family
                            sin_port := if r.sin_port ≠ 0 then r.sin_port else name.sin_port
                            sin_addr := if r.sin_addr ≠ 0 then r.sin_addr else name.sin_addr } } := by
  simp [connectHook, hfam, hnone]

/-- Witness for C1 at a concrete input: destination 10.0.0.1:443 with a
redirect to address 7 keeping the port. -/
theorem connect_redirect_composition_witness :
    (⟨AF_INET, 443, 167772161⟩ : SockAddrIn).sin_family = AF_INET ∧
    (⟨AF_INET, 0, 7⟩ : SockAddrIn).sin_addr ≠ INADDR_NONE ∧
    connectHook ⟨AF_INET, 443, 167772161⟩ true (some ⟨AF_INET, 0, 7⟩)
        (fun _ => 0) =
      { ret := 0, lastError := none, forwarded := some ⟨AF_INET, 443, 7⟩ } := by
  refine ⟨rfl, by decide, ?_⟩
  have h := connect_redirect_composition ⟨AF_INET, 443, 167772161⟩
    ⟨AF_INET, 0, 7⟩ (fun _ => 0) rfl (by decide)
  simpa using h

/-- C2: a matched deny decision (no replacement, or replacement address
equal to the INADDR_NONE sentinel) makes connectHook return SOCKET_ERROR
with last error WSAECONNREFUSED and never invoke the original connect; and
makes gethostHook return null with last error WSAHOST_NOT_FOUND and never
invoke the original resolver. -/
theorem deny_semantics (name : SockAddrIn) (replace : Option SockAddrIn)
    (orig : SockAddrIn → Int) (horig : Option HostEnt)
    (hfam : name.sin_family = AF_INET)
    (hdeny : replace = none ∨ ∃ r, replace = some r ∧ r.sin_addr = INADDR_NONE) :
    connectHook name true replace orig =
      { ret := SOCKET_ERROR, lastError := some WSAECONNREFUSED,
        forwarded := none } ∧
    gethostHook true replace horig =
      { ret := none, lastError := some WSAHOST_NOT_FOUND, origCalled := false } := by
  rcases hdeny with h | ⟨r, hr, haddr⟩
  · subst h
    constructor
    · simp [connectHook, hfam]
    · simp [gethostHook]
  · subst hr
    constructor
    · simp [connectHook, hfam, haddr]
    · have hne : r.sin_addr ≠ INADDR_ANY := by
        rw [haddr]; decide
      simp [gethostHook, haddr, hne]
      decide

/-- Witness for C2 at a concrete input: a matched rule with the INADDR_NONE
replacement address denies both the connect and the resolution. -/
theorem deny_semantics_witness :
    (⟨AF_INET, 27030, 5⟩ : SockAddrIn).sin_family = AF_INET ∧
    (connectHook ⟨AF_INET, 27030, 5⟩ true (some ⟨0, 0, INADDR_NONE⟩)
        (fun _ => 0) =
      { ret := SOCKET_ERROR, lastError := some WSAECONNREFUSED,
        forwarded := none } ∧
     gethostHook true (some ⟨0, 0, INADDR_NONE⟩) none =
      { ret := none, lastError := some WSAHOST_NOT_FOUND,
        origCalled := false }) := by
  refine ⟨rfl, ?_⟩
  exact deny_semantics ⟨AF_INET, 27030, 5⟩ (some ⟨0, 0, INADDR_NONE⟩)
    (fun _ => 0) none rfl (Or.inr ⟨⟨0, 0, INADDR_NONE⟩, rfl, rfl⟩)

/-- C9: a connect call whose destination family is not AF_INET is forwarded
to the original implementation with the destination unmodified and its
result returned unmodified, for every possible rule-engine outcome. -/
theorem connect_non_ipv4_passthrough (name : SockAddrIn) (matched : Bool)
    (replace : Option SockAddrIn) (orig : SockAddrIn → Int)
    (hfam : name.sin_family ≠ AF_INET) :
    connectHook name matched replace orig =
      { ret := orig name, lastError := none, forwarded := some name } := by
  simp [connectHook, hfam]

/-- Witness for C9 at a concrete input: an AF_INET6 (family 23) destination
passes through untouched even under a matched deny rule. -/
theorem connect_non_ipv4_passthrough_witness :
    (⟨23, 80, 9⟩ : SockAddrIn).sin_family ≠ AF_INET ∧
    connectHook ⟨23, 80, 9⟩ true (some ⟨0, 0, INADDR_NONE⟩) (fun a => a.sin_addr) =
      { ret := 9, lastError := none, forwarded := some ⟨23, 80, 9⟩ } := by
  refine ⟨by decide, ?_⟩
  have h := connect_non_ipv4_passthrough ⟨23, 80, 9⟩ true
    (some ⟨0, 0, INADDR_NONE⟩) (fun a => a.sin_addr) (by decide)
  simpa using h

/-- Conversion of a 32-bit unsigned value (or wider value truncated to 32
bits) into a signed int, as the implicit C conversions in the metering
hooks perform it. -/
def toInt32 (n : Nat) : Int :=
  if n % 2 ^ 32 < 2 ^ 31 then (n % 2 ^ 32 : Nat) else (n % 2 ^ 32 : Nat) - 2 ^ 32

/-- Conversion of a signed int into a 32-bit unsigned value, as the
assignment of the int byte count into the unsigned long window counter
performs it. -/
def toUint32 (b : Int) : Nat := (b % 2 ^ 32).toNat

/-- State of the bandwidth Meter (filter.cpp lines 348-366): tick of the
current window, bytes in the current window (unsigned long), tick of the
previous window and the cumulative total (long long, modelled mod 2^64). -/
structure Meter where
  m_now : Nat
  m_currentBytes : Nat
  m_last : Nat
  m_total : Nat
  deriving DecidableEq, Repr

/-- Meter constructor (filter.cpp lines 368-371): GetTickCount is abstracted
by the parameter. -/
def meterInit (now : Nat) : Meter :=
  { m_now := now, m_currentBytes := 0, m_last := 0, m_total := 0 }

/-- Embedding of Meter::newTick (filter.cpp lines 373-395): unsigned 32-bit
subtraction for the elapsed delta; when at least one tick elapsed, the
current window is rolled into the cumulative total. -/
def newTick (s : Meter) (now : Nat) : Meter :=
  let delta := (now % 2 ^ 32 + (2 ^ 32 - s.m_now % 2 ^ 32)) % 2 ^ 32
  if delta < 1 then s
  else
    { m_now := now % 2 ^ 32, m_currentBytes := 0, m_last := s.m_now,
      m_total := (s.m_total + s.m_currentBytes) % 2 ^ 64 }

/-- Embedding of Meter::operator += (filter.cpp lines 397-409): a
SOCKET_ERROR byte count is treated as zero, the window is rolled forward at
the current tick, then the count is added to the window counter (an
unsigned long, hence mod 2^32).  GetTickCount is abstracted by `now`. -/
def meterAdd (s : Meter) (bytes : Int) (now : Nat) : Meter :=
  let b : Int := if bytes = SOCKET_ERROR then 0 else bytes
  let s1 := newTick s now
  { s1 with m_currentBytes := (s1.m_currentBytes + toUint32 b) % 2 ^ 32 }

/-- Run a finite sequence of meter additions; each event carries the byte
count passed in and the tick at which the call happened. -/
def runMeter (s : Meter) : List (Int × Nat) → Meter
  | [] => s
  | e :: rest => runMeter (meterAdd s e.1 e.2) rest

/-- Sum of the non-error byte counts of a sequence of meter additions: a
SOCKET_ERROR sentinel contributes zero. -/
def nonErrorSum : List (Int × Nat) → Nat
  | [] => 0
  | e :: rest => (if e.1 = SOCKET_ERROR then 0 else e.1.toNat) + nonErrorSum rest

/-- C3 counterexample: after the single call add(5) at the creation tick,
the cumulative total is still zero while the sum of the non-error byte
counts passed in is 5 — the 5 bytes sit in the current-window counter until
a later tick rolls them over, so the cumulative total alone does not equal
the sum. -/
theorem meter_total_counterexample :
    (runMeter (meterInit 0) [(5, 0)]).m_total ≠ nonErrorSum [(5, 0)] := by
  decide

theorem meterAdd_window (s : Meter) (bytes : Int) (now : Nat)
    (hb : bytes = SOCKET_ERROR ∨ (0 ≤ bytes ∧ bytes < 2 ^ 31))
    (hbound : s.m_total + s.m_currentBytes +
      (if bytes = SOCKET_ERROR then 0 else bytes.toNat) < 2 ^ 32) :
    (meterAdd s bytes now).m_total + (meterAdd s bytes now).m_currentBytes =
      s.m_total + s.m_currentBytes +
        (if bytes = SOCKET_ERROR then 0 else bytes.toNat) := by
  have hsmall : s.m_total + s.m_currentBytes < 2 ^ 32 := by omega
  have hb32 : toUint32 (if bytes = SOCKET_ERROR then 0 else bytes) =
      (if bytes = SOCKET_ERROR then 0 else bytes.toNat) := by
    rcases hb with h | ⟨h0, h1⟩
    · simp [h, toUint32]
    · have hne : bytes ≠ SOCKET_ERROR := by
        intro hc
        rw [hc] at h0
        simp [SOCKET_ERROR] at h0
      simp only [hne, if_neg, ite_false]
      unfold toUint32
      rw [Int.emod_eq_of_lt h0 (by omega)]
  unfold meterAdd newTick
  by_cases hd : (now % 2 ^ 32 + (2 ^ 32 - s.m_now % 2 ^ 32)) % 2 ^ 32 < 1
  · simp only [hd, if_pos, ite_true, hb32]
    have hnw : s.m_currentBytes +
        (if bytes = SOCKET_ERROR then 0 else bytes.toNat) < 2 ^ 32 := by omega
    rw [Nat.mod_eq_of_lt hnw]
    omega
  · simp only [hd, if_neg, ite_false, hb32]
    have ht : (s.m_total + s.m_currentBytes) % 2 ^ 64 =
        s.m_total + s.m_currentBytes := by
      apply Nat.mod_eq_of_lt
      calc s.m_total + s.m_currentBytes < 2 ^ 32 := hsmall
        _ < 2 ^ 64 := by norm_num
    simp only [ht]
    have hnw : 0 + (if bytes = SOCKET_ERROR then 0 else bytes.toNat) < 2 ^ 32 := by
      omega
    rw [Nat.mod_eq_of_lt (by omega)]
    omega

theorem runMeter_window_sum (tr : List (Int × Nat)) : ∀ s : Meter,
    (∀ p ∈ tr, p.1 = SOCKET_ERROR ∨ (0 ≤ p.1 ∧ p.1 < 2 ^ 31)) →
    s.m_total + s.m_currentBytes + nonErrorSum tr < 2 ^ 32 →
    (runMeter s tr).m_total + (runMeter s tr).m_currentBytes =
      s.m_total + s.m_currentBytes + nonErrorSum tr := by
  induction tr with
  | nil => intro s _ _; simp [runMeter, nonErrorSum]
  | cons e rest ih =>
    intro s hb hbound
    have hbe : e.1 = SOCKET_ERROR ∨ (0 ≤ e.1 ∧ e.1 < 2 ^ 31) :=
      hb e (List.mem_cons_self e rest)
    have hsum : nonErrorSum (e :: rest) =
        (if e.1 = SOCKET_ERROR then 0 else e.1.toNat) + nonErrorSum rest := rfl
    have hstep := meterAdd_window s e.1 e.2 hbe (by omega)
    have hrest : ∀ p ∈ rest, p.1 = SOCKET_ERROR ∨ (0 ≤ p.1 ∧ p.1 < 2 ^ 31) :=
      fun p hp => hb p (List.mem_cons_of_mem e hp)
    have := ih (meterAdd s e.1 e.2) hrest (by omega)
    simp only [runMeter] at this ⊢
    omega

/-- C3 amended: after any finite sequence of add(byteCount) calls, the
cumulative total PLUS the current-window counter equals the sum of all
non-error byte counts passed in (each call passing the SOCKET_ERROR
sentinel contributing zero), provided every count is a valid non-negative
int or the sentinel and the total sum stays below the 32-bit capacity of
the window counter; the cumulative total alone holds only the part already
rolled over at a tick boundary. -/
theorem meter_window_sum (t0 : Nat) (tr : List (Int × Nat))
    (hb : ∀ p ∈ tr, p.1 = SOCKET_ERROR ∨ (0 ≤ p.1 ∧ p.1 < 2 ^ 31))
    (hbound : nonErrorSum tr < 2 ^ 32) :
    (runMeter (meterInit t0) tr).m_total +
      (runMeter (meterInit t0) tr).m_currentBytes = nonErrorSum tr := by
  have h := runMeter_window_sum tr (meterInit t0) hb
    (by simp [meterInit]; omega)
  simpa [meterInit] using h

/-- Witness for C3 amended on a concrete trace: adds of 5, a SOCKET_ERROR
sentinel and 7 across a tick boundary sum to 12. -/
theorem meter_window_sum_witness :
    (∀ p ∈ [((5 : Int), 0), (-1, 0), (7, 3)],
      p.1 = SOCKET_ERROR ∨ (0 ≤ p.1 ∧ p.1 < 2 ^ 31)) ∧
    nonErrorSum [((5 : Int), 0), (-1, 0), (7, 3)] < 2 ^ 32 ∧
    (runMeter (meterInit 0) [((5 : Int), 0), (-1, 0), (7, 3)]).m_total +
      (runMeter (meterInit 0) [((5 : Int), 0), (-1, 0), (7, 3)]).m_currentBytes =
      nonErrorSum [((5 : Int), 0), (-1, 0), (7, 3)] := by
  refine ⟨by decide, by decide, ?_⟩
  exact meter_window_sum 0 [((5 : Int), 0), (-1, 0), (7, 3)] (by decide) (by decide)

/-- Embedding of recvHook (filter.cpp lines 421-426): the original recv is
abstracted by its result; its return value is fed to the meter and returned
unchanged.  The flags argument is carried to show it has no influence. -/
def recvHook (s : Meter) (now : Nat) (flags : Nat) (result : Int) :
    Meter × Int :=
  (meterAdd s result now, result)

/-- Embedding of recvfromHook (filter.cpp lines 428-434): identical shape
to recvHook. -/
def recvfromHook (s : Meter) (now : Nat) (flags : Nat) (result : Int) :
    Meter × Int :=
  (meterAdd s result now, result)

/-- Embedding of wsaRecvHook (filter.cpp lines 452-480).  `overlapped` is
some internalHigh when the caller passed an OVERLAPPED block (internalHigh
being the completion size the block reports after the call), none when the
pointer was null; `handlerPresent` says whether a completion routine was
passed; `flagsPtr` is the pointed-to flags value (none = null pointer);
`result` is what the original WSARecv returned and `received` the value it
stored through the received pointer. -/
def wsaRecvHook (s : Meter) (now : Nat) (overlapped : Option Nat)
    (handlerPresent : Bool) (flagsPtr : Option Nat) (result : Int)
    (received : Nat) : Meter × Int :=
  if overlapped.isSome || handlerPresent then
    match overlapped with
    | some internalHigh =>
        if result = 0 then (meterAdd s (toInt32 internalHigh) now, result)
        else (s, result)
    | none => (s, result)
  else
    let ignore : Bool :=
      match flagsPtr with
      | some f => f &&& MSG_PEEK != 0
      | none => false
    if result ≠ SOCKET_ERROR ∧ ignore = false then
      (meterAdd s (toInt32 received) now, result)
    else (s, result)

/-- C4 counterexample: recvHook does not inspect the flags, so a successful
recv carrying MSG_PEEK does change the cumulative total of the meter.  With
5 bytes pending in the window from an earlier add, a peeking recv of 5
bytes at a later tick rolls the window over and the cumulative total
changes from 0 to 5. -/
theorem recv_peek_meters_counterexample :
    ((recvHook (meterAdd (meterInit 0) 5 0) 1 MSG_PEEK 5).1).m_total ≠
      (meterAdd (meterInit 0) 5 0).m_total := by
  decide

/-- C4 amended: the peek-flag metering exclusion applies only to the
synchronous (no overlapped block, no completion routine) WSARecv path,
where a peeking call leaves the meter state completely unchanged even on
success; recv (and recvfrom) feed every result into the meter regardless of
the peek flag; and an overlapped WSARecv that completes synchronously with
success feeds exactly the completion size reported on the completion block
into the meter. -/
theorem metering_exclusions_amended (s : Meter) (now : Nat) (f : Nat)
    (result : Int) (received internalHigh : Nat)
    (handlerPresent : Bool)
    (hpeek : f &&& MSG_PEEK ≠ 0) :
    wsaRecvHook s now none false (some f) result received = (s, result) ∧
    recvHook s now f result = (meterAdd s result now, result) ∧
    recvfromHook s now f result = (meterAdd s result now, result) ∧
    wsaRecvHook s now (some internalHigh) handlerPresent (some f) 0 received =
      (meterAdd s (toInt32 internalHigh) now, 0) := by
  refine ⟨?_, rfl, rfl, ?_⟩
  · have hig : (f &&& MSG_PEEK != 0) = true := by
      simp [hpeek]
    simp [wsaRecvHook, hig]
  · simp [wsaRecvHook]

/-- Witness for C4 amended at concrete inputs: flags = MSG_PEEK, a recv
result of 5 and an overlapped completion of 9 bytes. -/
theorem metering_exclusions_amended_witness :
    (MSG_PEEK &&& MSG_PEEK ≠ 0) ∧
    (wsaRecvHook (meterInit 0) 0 none false (some MSG_PEEK) 5 5 =
        (meterInit 0, 5) ∧
      recvHook (meterInit 0) 0 MSG_PEEK 5 =
        (meterAdd (meterInit 0) 5 0, 5) ∧
      recvfromHook (meterInit 0) 0 MSG_PEEK 5 =
        (meterAdd (meterInit 0) 5 0, 5) ∧
      wsaRecvHook (meterInit 0) 0 (some 9) false (some MSG_PEEK) 0 9 =
        (meterAdd (meterInit 0) (toInt32 9) 0, 0)) := by
  refine ⟨by decide, ?_⟩
  exact metering_exclusions_amended (meterInit 0) 0 MSG_PEEK 5 5 9 false
    (by decide)

/-- Byte-addressed memory of the hooked process: a total map from address
to byte value. -/
def Mem : Type := Nat → Nat

/-- Write one byte into memory. -/
def wr (m : Mem) (a v : Nat) : Mem := fun x => if x = a then v else m x

/-- PUSH imm8 opcode. -/
def PUSH_IMM8 : Nat := 0x6A

/-- Long jump opcode. -/
def JMP_LONG : Nat := 0xE9

/-- Short jump opcode. -/
def JMP_SHORT : Nat := 0xEB

/-- The MOV EDI, EDI two-byte no-op, as the 16-bit little-endian value the
source compares against the entry bytes. -/
def MOV_EDI_EDI : Nat := 0xFF8B

/-- A short branch of displacement -7, as the 16-bit value written over the
two-byte entry no-op (0xF900 + JMP_SHORT). -/
def JMP_SHORT_MINUS5 : Nat := 0xF900 + JMP_SHORT

/-- Unsigned 32-bit difference of two addresses, as the pointer differences
cast to unsigned long come out on the 32-bit target. -/
def sub32 (a b : Nat) : Nat := (a % 2 ^ 32 + (2 ^ 32 - b % 2 ^ 32)) % 2 ^ 32

/-- Embedding of writeOffset (filter.cpp lines 495-504): store a 32-bit
value into four consecutive bytes, least significant first. -/
def writeOffset (m : Mem) (dest value : Nat) : Mem :=
  let m1 := wr m dest (value % 256)
  let m2 := wr m1 (dest + 1) (value / 256 % 256)
  let m3 := wr m2 (dest + 2) (value / 256 / 256 % 256)
  wr m3 (dest + 3) (value / 256 / 256 / 256 % 256)

/-- The ApiHook record (filter.cpp lines 128-146): original entry address,
resume address, detour address, the 8 saved bytes and the 16-byte thunk
buffer.  Addresses are byte addresses with 0 meaning a null pointer; the
byte arrays are index-to-byte maps. -/
structure ApiHook where
  m_original : Nat
  m_resume : Nat
  m_hook : Nat
  m_save : Nat → Nat
  m_thunk : Nat → Nat

/-- The ApiHook default constructor (filter.cpp lines 701-702); the two
byte arrays are left uninitialized in the source and modelled as zero. -/
def ApiHook.init : ApiHook :=
  { m_original := 0, m_resume := 0, m_hook := 0,
    m_save := fun _ => 0, m_thunk := fun _ => 0 }

/-- Embedding of ApiHook::makeThunk (filter.cpp lines 560-572): copy the
leading bytes of the target into the thunk buffer, append a long jump whose
offset leads back to the displaced original flow, and return the address of
the thunk buffer (the VirtualProtect call on the thunk is modelled as
succeeding).  `thunkAddr` stands for the address at which the m_thunk
member resides. -/
def makeThunk (h : ApiHook) (m : Mem) (data bytes thunkAddr : Nat) :
    ApiHook × Nat :=
  let off := sub32 thunkAddr data
  let t : Nat → Nat := fun i =>
    if i < bytes then m (data + i)
    else if i = bytes then JMP_LONG
    else if i = bytes + 1 then off % 256
    else if i = bytes + 2 then off / 256 % 256
    else if i = bytes + 3 then off / 256 / 256 % 256
    else if i = bytes + 4 then off / 256 / 256 / 256 % 256
    else h.m_thunk i
  ({ h with m_thunk := t }, thunkAddr)

/-- The patch writes shared by both recognized prologue shapes (filter.cpp
lines 620-635): a long jump to the hook into the five bytes before the
entry point, then the short backward branch over the two entry bytes,
little-endian. -/
def patchTarget (h : ApiHook) (m : Mem) (address hook : Nat) :
    Bool × ApiHook × Mem :=
  let m1 := wr m (address - 5) JMP_LONG
  let m2 := writeOffset m1 (address - 4) (sub32 hook address)
  let m3 := wr m2 address (JMP_SHORT_MINUS5 % 256)
  let m4 := wr m3 (address + 1) (JMP_SHORT_MINUS5 / 256 % 256)
  (true, h, m4)

/-- Embedding of ApiHook::attach (filter.cpp lines 584-636).  Returns the
success flag, the updated record and the updated memory.  The two
VirtualProtect calls are modelled as succeeding; `thunkAddr` is the address
of the m_thunk buffer of this record. -/
def ApiHook.attach (h : ApiHook) (m : Mem) (address hook thunkAddr : Nat) :
    Bool × ApiHook × Mem :=
  if address = 0 then (false, h, m)
  else
    let h1 : ApiHook := { h with m_hook := hook, m_original := address }
    let save : Nat → Nat := fun i => if i < 8 then m (address - 5 + i) else h.m_save i
    let h2 : ApiHook := { h1 with m_save := save, m_resume := 0 }
    if m address = MOV_EDI_EDI % 256 ∧ m (address + 1) = MOV_EDI_EDI / 256 then
      patchTarget { h2 with m_resume := address + 2 } m address hook
    else if m address = PUSH_IMM8 then
      let tk := makeThunk h2 m address 2 thunkAddr
      patchTarget { tk.1 with m_resume := tk.2 } m address hook
    else (false, h2, m)

/-- Restore 7 bytes from a saved-byte map over the patched region, as the
memcpy in ApiHook::unhook performs it. -/
def restore (m : Mem) (a : Nat) (f : Nat → Nat) : Mem :=
  let m1 := wr m a (f 0)
  let m2 := wr m1 (a + 1) (f 1)
  let m3 := wr m2 (a + 2) (f 2)
  let m4 := wr m3 (a + 3) (f 3)
  let m5 := wr m4 (a + 4) (f 4)
  let m6 := wr m5 (a + 5) (f 5)
  wr m6 (a + 6) (f 6)

/-- Embedding of ApiHook::unhook (filter.cpp lines 672-681): a no-op on an
uninstalled record, otherwise the 7 saved bytes are copied back over the
patched region and the record is cleared. -/
def ApiHook.unhook (h : ApiHook) (m : Mem) : ApiHook × Mem :=
  if h.m_resume = 0 then (h, m)
  else
    ({ h with m_original := 0, m_resume := 0 },
     restore m (h.m_original - 5) h.m_save)

theorem restore_read (m : Mem) (a : Nat) (f : Nat → Nat) :
    ∀ i, i < 7 → restore m a f (a + i) = f i := by
  intro i hi
  interval_cases i <;> simp [restore, wr]

theorem unhook_after (h2 : ApiHook) (m2 : Mem) (hres : h2.m_resume ≠ 0) :
    ∀ i, i < 7 → ((h2.unhook m2).2) (h2.m_original - 5 + i) = h2.m_save i := by
  intro i hi
  simp only [ApiHook.unhook, if_neg hres]
  exact restore_read m2 (h2.m_original - 5) h2.m_save i hi

/-- C5: after a successful attach at entry point p, unhook restores the
bytes of the patched region — the 5 bytes immediately preceding p and the
2 bytes at p — to exactly the byte values present before the attach. -/
theorem unhook_restores (h : ApiHook) (m : Mem) (address hook thunkAddr : Nat)
    (h5 : 5 ≤ address) (ht : thunkAddr ≠ 0)
    (hs : (ApiHook.attach h m address hook thunkAddr).1 = true) :
    ∀ i, i < 7 →
      ((((ApiHook.attach h m address hook thunkAddr).2.1).unhook
          ((ApiHook.attach h m address hook thunkAddr).2.2)).2)
        (address - 5 + i) = m (address - 5 + i) := by
  intro i hi
  have hi8 : i < 8 := by omega
  by_cases h0 : address = 0
  · simp [ApiHook.attach, h0] at hs
  by_cases hmov : m address = MOV_EDI_EDI % 256 ∧ m (address + 1) = MOV_EDI_EDI / 256
  · have h_res : (ApiHook.attach h m address hook thunkAddr).2.1.m_resume =
        address + 2 := by
      simp [ApiHook.attach, h0, hmov, patchTarget]
    have h_orig : (ApiHook.attach h m address hook thunkAddr).2.1.m_original =
        address := by
      simp [ApiHook.attach, h0, hmov, patchTarget]
    have h_save : (ApiHook.attach h m address hook thunkAddr).2.1.m_save i =
        m (address - 5 + i) := by
      simp [ApiHook.attach, h0, hmov, patchTarget, hi8]
    have hu := unhook_after (ApiHook.attach h m address hook thunkAddr).2.1
      (ApiHook.attach h m address hook thunkAddr).2.2
      (by rw [h_res]; omega) i hi
    rw [h_orig, h_save] at hu
    exact hu
  by_cases hpush : m address = PUSH_IMM8
  · have hnotmov : ¬(PUSH_IMM8 = MOV_EDI_EDI % 256 ∧
        m (address + 1) = MOV_EDI_EDI / 256) := by
      rintro ⟨hA, -⟩
      simp [PUSH_IMM8, MOV_EDI_EDI] at hA
    have h_res : (ApiHook.attach h m address hook thunkAddr).2.1.m_resume =
        thunkAddr := by
      simp [ApiHook.attach, h0, hpush, hnotmov, makeThunk, patchTarget]
    have h_orig : (ApiHook.attach h m address hook thunkAddr).2.1.m_original =
        address := by
      simp [ApiHook.attach, h0, hpush, hnotmov, makeThunk, patchTarget]
    have h_save : (ApiHook.attach h m address hook thunkAddr).2.1.m_save i =
        m (address - 5 + i) := by
      simp [ApiHook.attach, h0, hpush, hnotmov, makeThunk, patchTarget, hi8]
    have hu := unhook_after (ApiHook.attach h m address hook thunkAddr).2.1
      (ApiHook.attach h m address hook thunkAddr).2.2
      (by rw [h_res]; exact ht) i hi
    rw [h_orig, h_save] at hu
    exact hu
  · simp [ApiHook.attach, h0, hmov, hpush] at hs

/-- Witness for C5 at a concrete input: memory with the two-byte no-op at
entry point 100, a hook at 200 and the thunk buffer at 300. -/
theorem unhook_restores_witness :
    (5 ≤ 100 ∧ (300 : Nat) ≠ 0 ∧
      (ApiHook.attach ApiHook.init
        (fun a => if a = 100 then 0x8B else if a = 101 then 0xFF else a % 251)
        100 200 300).1 = true) ∧
    (∀ i, i < 7 →
      ((((ApiHook.attach ApiHook.init
            (fun a => if a = 100 then 0x8B else if a = 101 then 0xFF else a % 251)
            100 200 300).2.1).unhook
          ((ApiHook.attach ApiHook.init
            (fun a => if a = 100 then 0x8B else if a = 101 then 0xFF else a % 251)
            100 200 300).2.2)).2) (100 - 5 + i) =
        (fun a => if a = 100 then 0x8B else if a = 101 then 0xFF else a % 251)
          (100 - 5 + i)) := by
  refine ⟨⟨by decide, by decide, by decide⟩, ?_⟩
  exact unhook_restores ApiHook.init
    (fun a => if a = 100 then 0x8B else if a = 101 then 0xFF else a % 251)
    100 200 300 (by decide) (by decide) (by decide)

/-- C8: attach fails without modifying memory when the target address is
null, and fails without modifying memory when the leading bytes of the
target are neither the MOV EDI, EDI two-byte no-op nor the PUSH imm8
opcode. -/
theorem attach_failure_cases (h : ApiHook) (m : Mem)
    (address hook thunkAddr : Nat)
    (hbytes : ¬(m address = MOV_EDI_EDI % 256 ∧ m (address + 1) = MOV_EDI_EDI / 256) ∧
      m address ≠ PUSH_IMM8) :
    (ApiHook.attach h m 0 hook thunkAddr).1 = false ∧
    (ApiHook.attach h m 0 hook thunkAddr).2.2 = m ∧
    (ApiHook.attach h m address hook thunkAddr).1 = false ∧
    (ApiHook.attach h m address hook thunkAddr).2.2 = m := by
  obtain ⟨h1, h2⟩ := hbytes
  refine ⟨by simp [ApiHook.attach], by simp [ApiHook.attach], ?_, ?_⟩ <;>
    by_cases h0 : address = 0 <;> simp [ApiHook.attach, h0, h1, h2]

/-- Witness for C8 at a concrete input: a target whose first byte is 0x90
(a plain NOP, recognized by neither prologue pattern). -/
theorem attach_failure_cases_witness :
    (¬((fun _ : Nat => (0x90 : Nat)) 100 = MOV_EDI_EDI % 256 ∧
        (fun _ : Nat => (0x90 : Nat)) (100 + 1) = MOV_EDI_EDI / 256) ∧
      (fun _ : Nat => (0x90 : Nat)) 100 ≠ PUSH_IMM8) ∧
    ((ApiHook.attach ApiHook.init (fun _ => 0x90) 0 200 300).1 = false ∧
      (ApiHook.attach ApiHook.init (fun _ => 0x90) 0 200 300).2.2 = (fun _ => 0x90) ∧
      (ApiHook.attach ApiHook.init (fun _ => 0x90) 100 200 300).1 = false ∧
      (ApiHook.attach ApiHook.init (fun _ => 0x90) 100 200 300).2.2 = (fun _ => 0x90)) := by
  refine ⟨⟨by decide, by decide⟩, ?_⟩
  exact attach_failure_cases ApiHook.init (fun _ => 0x90) 100 200 300
    ⟨by decide, by decide⟩

/-- Process-wide state of the filter module: the m_resume field of each of
the seven global hook records (0 = uninstalled), whether the inet_addr
entry point currently carries patched bytes, the recorded module handle
g_instance (0 = null) and the rule set configured in the external engine. -/
structure LifeState where
  connectR : Nat
  gethostR : Nat
  inetAddrR : Nat
  recvR : Nat
  recvfromR : Nat
  wsaRecvR : Nat
  wsaGetOverlappedR : Nat
  inetPatched : Bool
  g_instance : Nat
  rules : List String
  deriving DecidableEq, Repr

/-- The state at DLL load: every global hook record default-constructed
with a null resume, no instance handle recorded, nothing patched. -/
def initialState : LifeState :=
  { connectR := 0, gethostR := 0, inetAddrR := 0, recvR := 0, recvfromR := 0,
    wsaRecvR := 0, wsaGetOverlappedR := 0, inetPatched := false,
    g_instance := 0, rules := [] }

/-- Environment of one SteamFilter call: the outcome of the external rule
engine configure call, the resume address each hook attach would produce on
success (0 = that attach fails, covering both export resolution failure and
an unrecognized prologue), and the module handle GetModuleHandleExW
records.  The wait loop for WS2_32.DLL is modelled as having terminated. -/
structure AttachEnv where
  configOk : Bool
  connectA : Nat
  gethostA : Nat
  recvA : Nat
  recvfromA : Nat
  wsaRecvA : Nat
  wsaGetOverlappedA : Nat
  moduleHandle : Nat
  deriving DecidableEq, Repr

/-- Modelled from the spec: the FilterRules engine lives outside the given
source (filterrule.cpp); per the collaborator interface, configure
(g_rules.install) returns a Bool and resets the rule set from the address
specification, and append adds one rule.  setFilter (filter.cpp lines
527-544) installs the address, appends the black-hole DNS rule on success,
and returns 1 on success and 0 on failure; on failure the engine keeps its
previous rules. -/
def setFilter (rules : List String) (address : String) (configOk : Bool) :
    List String × Int :=
  if configOk then ([address, "content?.steampowered.com="], 1)
  else (rules, 0)

/-- Embedding of unhookAll (filter.cpp lines 687-695): every record is
unhooked, which clears its resume field; a record whose resume is null
writes nothing back, so the inet_addr entry bytes change only if that
record was installed. -/
def unhookAllL (s : LifeState) : LifeState :=
  { s with connectR := 0, gethostR := 0, inetAddrR := 0, recvR := 0,
           recvfromR := 0, wsaRecvR := 0, wsaGetOverlappedR := 0,
           inetPatched := if s.inetAddrR = 0 then s.inetPatched else false }

/-- Embedding of SteamFilter (filter.cpp lines 728-781).  When the connect
hook is already installed, the call only reapplies setFilter and returns
its result; the result of the initial setFilter call on the first
invocation is discarded by the source.  The six attaches happen in order
with C short-circuit evaluation; on any failure, unhookAll rolls every
record back and the call returns ~0UL, which read back as a signed int on
the 32-bit target is -1. -/
def steamFilter (s : LifeState) (address : String) (env : AttachEnv) :
    LifeState × Int :=
  if s.connectR ≠ 0 then
    let p := setFilter s.rules address env.configOk
    ({ s with rules := p.1 }, p.2)
  else
    let s0 := { s with rules := (setFilter s.rules address env.configOk).1 }
    let s1 := { s0 with connectR := env.connectA }
    if env.connectA = 0 then (unhookAllL s1, -1) else
    let s2 := { s1 with gethostR := env.gethostA }
    if env.gethostA = 0 then (unhookAllL s2, -1) else
    let s3 := { s2 with recvR := env.recvA }
    if env.recvA = 0 then (unhookAllL s3, -1) else
    let s4 := { s3 with recvfromR := env.recvfromA }
    if env.recvfromA = 0 then (unhookAllL s4, -1) else
    let s5 := { s4 with wsaRecvR := env.wsaRecvA }
    if env.wsaRecvA = 0 then (unhookAllL s5, -1) else
    let s6 := { s5 with wsaGetOverlappedR := env.wsaGetOverlappedA }
    if env.wsaGetOverlappedA = 0 then (unhookAllL s6, -1) else
    ({ s6 with g_instance := env.moduleHandle }, 1)

/-- Embedding of removeHook (filter.cpp lines 791-797): a no-op when the
connect hook is not installed, otherwise unhookAll. -/
def removeHook (s : LifeState) : LifeState :=
  if s.connectR = 0 then s else unhookAllL s

/-- Embedding of FilterUnload (filter.cpp lines 807-815): a no-op returning
0 when no instance handle is recorded; otherwise removes the hooks,
releases the module pin and returns 1. -/
def filterUnload (s : LifeState) : LifeState × Int :=
  if s.g_instance = 0 then (s, 0)
  else ({ removeHook s with g_instance := 0 }, 1)

/-- Embedding of the DllMain process-detach path (filter.cpp lines
817-829): removeHook only, the pin is not released. -/
def dllDetach (s : LifeState) : LifeState := removeHook s

/-- The states the module can reach from DLL load under any sequence of
SteamFilter, FilterUnload and process-detach calls with any environment
outcomes. -/
inductive Reachable : LifeState → Prop where
  | init : Reachable initialState
  | install (s : LifeState) (address : String) (env : AttachEnv) :
      Reachable s → Reachable (steamFilter s address env).1
  | unload (s : LifeState) : Reachable s → Reachable (filterUnload s).1
  | detach (s : LifeState) : Reachable s → Reachable (dllDetach s)

/-- C6 counterexample: on a first call where the rule configuration fails
but every hook attach succeeds, SteamFilter returns 1 (success) — not a
could-not-configure-rules failure — because the source discards the result
of the initial setFilter call. -/
theorem steamFilter_config_ignored_counterexample :
    (AttachEnv.mk false 10 11 12 13 14 15 1).configOk = false ∧
    (steamFilter initialState "x" (AttachEnv.mk false 10 11 12 13 14 15 1)).2
      = 1 := by
  constructor
  · rfl
  · decide

/-- C6 amended: a first call to the installation entry point returns
exactly one of success (1) or a could-not-install-hooks failure (-1), the
latter with every hook record installed during the attempt rolled back to
the uninstalled state before the failure is reported; the result of
applying the initial rule configuration is ignored, so a configuration
failure produces no distinct return. -/
theorem steamFilter_first_call (s : LifeState) (address : String)
    (env : AttachEnv) (hfirst : s.connectR = 0) :
    (steamFilter s address env).2 = 1 ∨
    ((steamFilter s address env).2 = -1 ∧
      (steamFilter s address env).1.connectR = 0 ∧
      (steamFilter s address env).1.gethostR = 0 ∧
      (steamFilter s address env).1.recvR = 0 ∧
      (steamFilter s address env).1.recvfromR = 0 ∧
      (steamFilter s address env).1.wsaRecvR = 0 ∧
      (steamFilter s address env).1.wsaGetOverlappedR = 0) := by
  by_cases hc : env.connectA = 0
  · right; simp [steamFilter, hfirst, hc, unhookAllL]
  by_cases hg : env.gethostA = 0
  · right; simp [steamFilter, hfirst, hc, hg, unhookAllL]
  by_cases hr : env.recvA = 0
  · right; simp [steamFilter, hfirst, hc, hg, hr, unhookAllL]
  by_cases hrf : env.recvfromA = 0
  · right; simp [steamFilter, hfirst, hc, hg, hr, hrf, unhookAllL]
  by_cases hw : env.wsaRecvA = 0
  · right; simp [steamFilter, hfirst, hc, hg, hr, hrf, hw, unhookAllL]
  by_cases ho : env.wsaGetOverlappedA = 0
  · right; simp [steamFilter, hfirst, hc, hg, hr, hrf, hw, ho, unhookAllL]
  · left; simp [steamFilter, hfirst, hc, hg, hr, hrf, hw, ho]

/-- Witness for C6 amended at a concrete input: a failing recv attach on a
fresh state. -/
theorem steamFilter_first_call_witness :
    initialState.connectR = 0 ∧
    ((steamFilter initialState "x" (AttachEnv.mk true 10 11 0 13 14 15 1)).2 = 1 ∨
      ((steamFilter initialState "x" (AttachEnv.mk true 10 11 0 13 14 15 1)).2 = -1 ∧
        (steamFilter initialState "x" (AttachEnv.mk true 10 11 0 13 14 15 1)).1.connectR = 0 ∧
        (steamFilter initialState "x" (AttachEnv.mk true 10 11 0 13 14 15 1)).1.gethostR = 0 ∧
        (steamFilter initialState "x" (AttachEnv.mk true 10 11 0 13 14 15 1)).1.recvR = 0 ∧
        (steamFilter initialState "x" (AttachEnv.mk true 10 11 0 13 14 15 1)).1.recvfromR = 0 ∧
        (steamFilter initialState "x" (AttachEnv.mk true 10 11 0 13 14 15 1)).1.wsaRecvR = 0 ∧
        (steamFilter initialState "x" (AttachEnv.mk true 10 11 0 13 14 15 1)).1.wsaGetOverlappedR = 0)) := by
  refine ⟨rfl, ?_⟩
  exact steamFilter_first_call initialState "x"
    (AttachEnv.mk true 10 11 0 13 14 15 1) rfl

/-- C7: calling FilterUnload a second time, or on a never-installed module,
is a no-op returning 0, so two calls have the same observable effect as
one; and re-invoking SteamFilter after a successful installation leaves
every hook record and the module pin untouched — it only reapplies the rule
configuration and returns its result. -/
theorem lifecycle_idempotence (s t : LifeState) (address : String)
    (env : AttachEnv) (hinstalled : s.connectR ≠ 0) :
    filterUnload (filterUnload t).1 = ((filterUnload t).1, 0) ∧
    (t.g_instance = 0 → filterUnload t = (t, 0)) ∧
    (steamFilter s address env).1.connectR = s.connectR ∧
    (steamFilter s address env).1.gethostR = s.gethostR ∧
    (steamFilter s address env).1.inetAddrR = s.inetAddrR ∧
    (steamFilter s address env).1.recvR = s.recvR ∧
    (steamFilter s address env).1.recvfromR = s.recvfromR ∧
    (steamFilter s address env).1.wsaRecvR = s.wsaRecvR ∧
    (steamFilter s address env).1.wsaGetOverlappedR = s.wsaGetOverlappedR ∧
    (steamFilter s address env).1.inetPatched = s.inetPatched ∧
    (steamFilter s address env).1.g_instance = s.g_instance ∧
    (steamFilter s address env).2 = (setFilter s.rules address env.configOk).2 := by
  refine ⟨?_, ?_, ?_⟩
  · by_cases h0 : t.g_instance = 0
    · simp [filterUnload, h0]
    · simp [filterUnload, h0]
  · intro h0; simp [filterUnload, h0]
  · simp [steamFilter, hinstalled]

/-- Witness for C7 at a concrete input: an installed state with every
resume nonzero and a recorded instance handle. -/
theorem lifecycle_idempotence_witness :
    (LifeState.mk 10 11 0 12 13 14 15 false 1 []).connectR ≠ 0 ∧
    (filterUnload (filterUnload (LifeState.mk 10 11 0 12 13 14 15 false 1 [])).1 =
        ((filterUnload (LifeState.mk 10 11 0 12 13 14 15 false 1 [])).1, 0) ∧
      ((LifeState.mk 10 11 0 12 13 14 15 false 1 []).g_instance = 0 →
        filterUnload (LifeState.mk 10 11 0 12 13 14 15 false 1 []) =
          ((LifeState.mk 10 11 0 12 13 14 15 false 1 []), 0)) ∧
      (steamFilter (LifeState.mk 10 11 0 12 13 14 15 false 1 []) "y"
          (AttachEnv.mk true 20 21 22 23 24 25 2)).1.connectR =
        (LifeState.mk 10 11 0 12 13 14 15 false 1 []).connectR ∧
      (steamFilter (LifeState.mk 10 11 0 12 13 14 15 false 1 []) "y"
          (AttachEnv.mk true 20 21 22 23 24 25 2)).1.gethostR =
        (LifeState.mk 10 11 0 12 13 14 15 false 1 []).gethostR ∧
      (steamFilter (LifeState.mk 10 11 0 12 13 14 15 false 1 []) "y"
          (AttachEnv.mk true 20 21 22 23 24 25 2)).1.inetAddrR =
        (LifeState.mk 10 11 0 12 13 14 15 false 1 []).inetAddrR ∧
      (steamFilter (LifeState.mk 10 11 0 12 13 14 15 false 1 []) "y"
          (AttachEnv.mk true 20 21 22 23 24 25 2)).1.recvR =
        (LifeState.mk 10 11 0 12 13 14 15 false 1 []).recvR ∧
      (steamFilter (LifeState.mk 10 11 0 12 13 14 15 false 1 []) "y"
          (AttachEnv.mk true 20 21 22 23 24 25 2)).1.recvfromR =
        (LifeState.mk 10 11 0 12 13 14 15 false 1 []).recvfromR ∧
      (steamFilter (LifeState.mk 10 11 0 12 13 14 15 false 1 []) "y"
          (AttachEnv.mk true 20 21 22 23 24 25 2)).1.wsaRecvR =
        (LifeState.mk 10 11 0 12 13 14 15 false 1 []).wsaRecvR ∧
      (steamFilter (LifeState.mk 10 11 0 12 13 14 15 false 1 []) "y"
          (AttachEnv.mk true 20 21 22 23 24 25 2)).1.wsaGetOverlappedR =
        (LifeState.mk 10 11 0 12 13 14 15 false 1 []).wsaGetOverlappedR ∧
      (steamFilter (LifeState.mk 10 11 0 12 13 14 15 false 1 []) "y"
          (AttachEnv.mk true 20 21 22 23 24 25 2)).1.inetPatched =
        (LifeState.mk 10 11 0 12 13 14 15 false 1 []).inetPatched ∧
      (steamFilter (LifeState.mk 10 11 0 12 13 14 15 false 1 []) "y"
          (AttachEnv.mk true 20 21 22 23 24 25 2)).1.g_instance =
        (LifeState.mk 10 11 0 12 13 14 15 false 1 []).g_instance ∧
      (steamFilter (LifeState.mk 10 11 0 12 13 14 15 false 1 []) "y"
          (AttachEnv.mk true 20 21 22 23 24 25 2)).2 =
        (setFilter (LifeState.mk 10 11 0 12 13 14 15 false 1 []).rules "y"
          (AttachEnv.mk true 20 21 22 23 24 25 2).configOk).2) := by
  refine ⟨by decide, ?_⟩
  exact lifecycle_idempotence (LifeState.mk 10 11 0 12 13 14 15 false 1 [])
    (LifeState.mk 10 11 0 12 13 14 15 false 1 []) "y"
    (AttachEnv.mk true 20 21 22 23 24 25 2) (by decide)

/-- C10: in every state reachable from DLL load, the inet_addr hook record
stays uninstalled (null resume) and the inet_addr entry point carries no
patch — no SteamFilter, FilterUnload or detach sequence ever attaches
it, even though the record exists and unhookAll iterates over it. -/
theorem inet_addr_never_hooked (s : LifeState) (hs : Reachable s) :
    s.inetAddrR = 0 ∧ s.inetPatched = false := by
  induction hs with
  | init => exact ⟨rfl, rfl⟩
  | install t address env _ ih =>
    obtain ⟨hR, hP⟩ := ih
    by_cases hfirst : t.connectR ≠ 0
    · simp [steamFilter, hfirst, hR, hP]
    · simp only [steamFilter, hfirst, if_neg, ite_false, if_false]
      by_cases hc : env.connectA = 0
      · simp [hc, unhookAllL, hR, hP]
      by_cases hg : env.gethostA = 0
      · simp [hc, hg, unhookAllL, hR, hP]
      by_cases hr : env.recvA = 0
      · simp [hc, hg, hr, unhookAllL, hR, hP]
      by_cases hrf : env.recvfromA = 0
      · simp [hc, hg, hr, hrf, unhookAllL, hR, hP]
      by_cases hw : env.wsaRecvA = 0
      · simp [hc, hg, hr, hrf, hw, unhookAllL, hR, hP]
      by_cases ho : env.wsaGetOverlappedA = 0
      · simp [hc, hg, hr, hrf, hw, ho, unhookAllL, hR, hP]
      · simp [hc, hg, hr, hrf, hw, ho, hR, hP]
  | unload t _ ih =>
    obtain ⟨hR, hP⟩ := ih
    by_cases h0 : t.g_instance = 0
    · simp [filterUnload, h0, hR, hP]
    · by_cases hcr : t.connectR = 0
      · simp [filterUnload, h0, removeHook, hcr, hR, hP]
      · simp [filterUnload, h0, removeHook, hcr, unhookAllL, hR, hP]
  | detach t _ ih =>
    obtain ⟨hR, hP⟩ := ih
    by_cases hcr : t.connectR = 0
    · simp [dllDetach, removeHook, hcr, hR, hP]
    · simp [dllDetach, removeHook, hcr, unhookAllL, hR, hP]

/-- Witness for C10: the state after a fully successful installation on the
initial state is reachable and satisfies the invariant. -/
theorem inet_addr_never_hooked_witness :
    (steamFilter initialState "x" (AttachEnv.mk true 10 11 12 13 14 15 1)).1.inetAddrR = 0 ∧
    (steamFilter initialState "x" (AttachEnv.mk true 10 11 12 13 14 15 1)).1.inetPatched = false :=
  inet_addr_never_hooked
    (steamFilter initialState "x" (AttachEnv.mk true 10 11 12 13 14 15 1)).1
    (Reachable.install initialState "x" (AttachEnv.mk true 10 11 12 13 14 15 1)
      Reachable.init)

end SteamLimiter
